import Mathlib

/-!
Shallow embedding of the MergePDF service (`app/main.py`): canvas geometry,
image fitting arithmetic, mode normalization, rotation, PDF pass-through,
per-item candidate fallback, and the ordered page merge.
-/

namespace MergePDF

/-! ## Canvas geometry (`app/main.py` lines 26-31)

`DPI = int(os.getenv("MERGEPDF_DPI", "200"))`, an arbitrary configured natural.
`LETTER_WIDTH_PX = int(8.5 * DPI)`: Python `int()` truncates toward zero, and
`8.5 * DPI` is exactly `17 * DPI / 2`, so for a nonnegative `DPI` this is the
natural-number floor division `17 * DPI / 2`.
`LETTER_HEIGHT_PX = int(11.0 * DPI) = 11 * DPI` exactly. -/

def LETTER_WIDTH_PX (dpi : ℕ) : ℕ := 17 * dpi / 2

def LETTER_HEIGHT_PX (dpi : ℕ) : ℕ := 11 * dpi

/-- Physical canvas width in points, as computed by the code at line 374:
`LETTER_WIDTH_PX * (72.0 / DPI)`. -/
def canvasWidthPts (dpi : ℕ) : ℚ := (LETTER_WIDTH_PX dpi : ℚ) * (72 / (dpi : ℚ))

/-- Physical canvas height in points, `LETTER_HEIGHT_PX * (72.0 / DPI)`. -/
def canvasHeightPts (dpi : ℕ) : ℚ := (LETTER_HEIGHT_PX dpi : ℚ) * (72 / (dpi : ℚ))

/-! ## PDF pass-through (`convert_to_pdf`, lines 391-417)

Bytes are modelled as lists of naturals (byte values).  `convert_to_pdf`
first checks `content_type == "application/pdf" or file_bytes.startswith(b"%PDF")`
and, when the check succeeds, writes `file_bytes` unchanged to the output path
and returns it; otherwise it falls through to the image pipeline. -/

/-- The PDF signature `b"%PDF"` as byte values. -/
def pdfSignature : List ℕ := [37, 80, 68, 70]

/-- Result of `convert_to_pdf`: either the pass-through branch (carrying the
exact bytes written to disk) or the image-conversion branch. -/
inductive ConvResult where
  | passThrough (written : List ℕ)
  | imagePipeline
  deriving DecidableEq

/-- `convert_to_pdf` dispatch (lines 396-402): the pass-through condition and
the verbatim write. -/
def convert_to_pdf (fileBytes : List ℕ) (contentType : String) : ConvResult :=
  if contentType = "application/pdf" ∨ fileBytes.take 4 = pdfSignature then
    ConvResult.passThrough fileBytes
  else
    ConvResult.imagePipeline

/-! ## Ordered merge (`merge_pdf_files`, lines 420-449)

A stored PDF file is its parse result: `none` when `PdfReader` raises, `some
pages` otherwise.  The merge loop appends every page of each input in order
into the writer; a parse failure of any input re-raises (`Except.error`). -/

/-- The pages a parsed file contributes (defined when the file parses). -/
def pagesOf {α : Type} (store : ℕ → Option (List α)) (p : ℕ) : List α :=
  (store p).getD []

/-- `merge_pdf_files`: read each path in order, appending its pages to the
writer; any unreadable input aborts the whole merge (lines 436-438 re-raise). -/
def merge_pdf_files {α : Type} (store : ℕ → Option (List α)) :
    List ℕ → Except Unit (List α)
  | [] => Except.ok []
  | p :: ps =>
    match store p with
    | none => Except.error ()
    | some pages =>
      match merge_pdf_files store ps with
      | Except.ok rest => Except.ok (pages ++ rest)
      | Except.error e => Except.error e

/-! ## Per-item candidate fallback (`merge_pdfs` loop, lines 192-225)

For one nid, the loop walks the candidate URLs in order.  A candidate either
raises during download (caught, `continue`), converts to `None` (logged,
loop continues), or converts to a path (`break`).  After the loop, an item
with no successful candidate is dropped and later items are still processed. -/

/-- Outcome of handling one candidate URL for an item. -/
inductive CandOutcome where
  | fetchFail
  | convFail
  | convOk (path : ℕ)
  deriving DecidableEq

/-- A candidate that did not produce a PDF path. -/
def isFailing : CandOutcome → Bool
  | CandOutcome.convOk _ => false
  | _ => true

/-- The inner `for attempt, file_url in enumerate(file_urls, 1)` loop:
first successful conversion wins, every failure is skipped. -/
def resolveItem : List CandOutcome → Option ℕ
  | [] => none
  | CandOutcome.fetchFail :: cs => resolveItem cs
  | CandOutcome.convFail :: cs => resolveItem cs
  | CandOutcome.convOk p :: _ => some p

/-- The outer `for nid, file_urls in files_by_nid.items()` loop: collect the
resolved path of each item, dropping unresolved items (lines 222-225). -/
def processItems : List (List CandOutcome) → List ℕ
  | [] => []
  | item :: rest =>
    match resolveItem item with
    | some p => p :: processItems rest
    | none => processItems rest

/-! ## Image fitting arithmetic (`_fit_image_to_pdf`, lines 349-366)

`scale_width = LETTER_WIDTH_PX / orig_width`, `scale_height =
LETTER_HEIGHT_PX / orig_height`, `scale_factor = min(scale_width,
scale_height, 1.0)`.  `new_width = int(orig_width * scale_factor)` and
likewise for the height (truncation of a nonnegative value = floor).  The
resize happens only when `scale_factor < 1.0`.  Real arithmetic is modelled
over `ℚ`. -/

/-- `scale_factor = min(scale_width, scale_height, 1.0)` on canvas `W × H`
for an image of pixel size `w × h`. -/
def scale_factor (W H w h : ℕ) : ℚ :=
  min (min ((W : ℚ) / (w : ℚ)) ((H : ℚ) / (h : ℚ))) 1

/-- `new_width = int(orig_width * scale_factor)`. -/
def new_width (W H w h : ℕ) : ℕ := (⌊(w : ℚ) * scale_factor W H w h⌋).toNat

/-- `new_height = int(orig_height * scale_factor)`. -/
def new_height (W H w h : ℕ) : ℕ := (⌊(h : ℚ) * scale_factor W H w h⌋).toNat

/-- Pixel dimensions of the image after the conditional resize at lines
362-365: resized only when `scale_factor < 1.0`, otherwise untouched. -/
def fittedDims (W H w h : ℕ) : ℕ × ℕ :=
  if scale_factor W H w h < 1 then (new_width W H w h, new_height W H w h)
  else (w, h)

/-- The dimensions after the portrait rotation at lines 342-347: a 90-degree
transpose swaps width and height. -/
def portraitDims (w h : ℕ) : ℕ × ℕ := if h < w then (h, w) else (w, h)

/-- Dimensions produced by the whole orientation-then-scale pipeline of
`_fit_image_to_pdf` (rotation first, lines 342-347; scaling second, lines
349-365). -/
def fitPipelineDims (W H w h : ℕ) : ℕ × ℕ :=
  fittedDims W H (portraitDims w h).1 (portraitDims w h).2

/-! ## Pixel-level rotation (`_fit_image_to_pdf`, lines 342-347)

An image is a width, a height and a pixel grid.  The code calls
`image.transpose(Image.ROTATE_90)`; Pillow documents `ROTATE_90` as a
90-degree **counterclockwise** rotation (`transpose(ROTATE_90)` agrees with
`rotate(90, expand=True)`, and Pillow's `rotate` is counterclockwise). -/

structure Mat where
  width : ℕ
  height : ℕ
  pix : ℕ → ℕ → ℕ

/-- Pillow `transpose(Image.ROTATE_90)`: the 90-degree counterclockwise
quarter-turn.  Output pixel `(x, y)` is input pixel `(width - 1 - y, x)`. -/
def transposeROTATE90 (m : Mat) : Mat :=
  { width := m.height, height := m.width,
    pix := fun x y => m.pix (m.width - 1 - y) x }

/-- The 90-degree **clockwise** quarter-turn, as the claim and the code's
inline comment describe.  Output pixel `(x, y)` is input pixel
`(y, height - 1 - x)`. -/
def rotate90Clockwise (m : Mat) : Mat :=
  { width := m.height, height := m.width,
    pix := fun x y => m.pix y (m.height - 1 - x) }

/-- Lines 342-347: `if image.width > image.height: image =
image.transpose(Image.ROTATE_90)`. -/
def forcePortrait (m : Mat) : Mat :=
  if m.height < m.width then transposeROTATE90 m else m

/-- A 2x1 landscape image whose pixels are `0` at `x = 0` and `1` at
`x = 1`. -/
def landscapeSample : Mat := { width := 2, height := 1, pix := fun x _ => x }

/-! ## Color-mode normalization (`_fit_image_to_pdf`, lines 326-335)

`if image.mode in ("RGBA", "LA", "P"):` paste onto a white RGB background
with `mask = image.split()[-1] if image.mode in ("RGBA", "LA") else None`
— so the alpha channel is used as the paste mask only for RGBA and LA,
while a P image is pasted with no mask; `elif image.mode != "RGB":`
direct `convert("RGB")`. -/

inductive Mode where
  | RGB
  | RGBA
  | LA
  | P
  | L
  deriving DecidableEq

structure Color where
  r : ℕ
  g : ℕ
  b : ℕ
  deriving DecidableEq

def whiteColor : Color := ⟨255, 255, 255⟩

/-- Pillow paste with a grayscale mask `a` (0..255): each channel blends
`(fg * a + bg * (255 - a)) / 255`. -/
def compositeOver (bg fg : Color) (a : ℕ) : Color :=
  ⟨(fg.r * a + bg.r * (255 - a)) / 255,
   (fg.g * a + bg.g * (255 - a)) / 255,
   (fg.b * a + bg.b * (255 - a)) / 255⟩

/-- An image with a mode, pixel grid of RGB colors (palette already looked
up for P mode) and an alpha channel (255 where opaque). -/
structure PImg where
  mode : Mode
  width : ℕ
  height : ℕ
  color : ℕ → ℕ → Color
  alpha : ℕ → ℕ → ℕ

/-- Lines 326-335: the mode-normalization step.  RGBA/LA composite onto a
white background through their alpha channel; P is pasted with `mask=None`
(every pixel's palette color overwrites the white background, its alpha
ignored); any other non-RGB mode converts directly; RGB is untouched. -/
def toRGB (im : PImg) : PImg :=
  match im.mode with
  | Mode.RGBA =>
    { mode := Mode.RGB, width := im.width, height := im.height,
      color := fun x y => compositeOver whiteColor (im.color x y) (im.alpha x y),
      alpha := fun _ _ => 255 }
  | Mode.LA =>
    { mode := Mode.RGB, width := im.width, height := im.height,
      color := fun x y => compositeOver whiteColor (im.color x y) (im.alpha x y),
      alpha := fun _ _ => 255 }
  | Mode.P =>
    { mode := Mode.RGB, width := im.width, height := im.height,
      color := im.color, alpha := fun _ _ => 255 }
  | Mode.RGB => im
  | Mode.L =>
    { mode := Mode.RGB, width := im.width, height := im.height,
      color := im.color, alpha := fun _ _ => 255 }

/-- A 1x1 P-mode image whose single palette entry is black and whose alpha
is 0 (fully transparent). -/
def pSample : PImg :=
  { mode := Mode.P, width := 1, height := 1,
    color := fun _ _ => ⟨0, 0, 0⟩, alpha := fun _ _ => 0 }

/-! ## Final page geometry (`_fit_image_to_pdf`, lines 368-384)

`PageObject.create_blank_page(width=LETTER_WIDTH_PX * (72.0 / DPI),
height=LETTER_HEIGHT_PX * (72.0 / DPI))`, then `letter_page.merge_page(...)`
— pypdf's `merge_page` overlays the argument's content and keeps the
receiver's media box — and the writer receives exactly that one page. -/

/-- A page is modelled by its media-box size in points. -/
def create_blank_page (w h : ℚ) : ℚ × ℚ := (w, h)

/-- pypdf `PageObject.merge_page`: content is overlaid, the receiver's
media box is kept. -/
def merge_page (target overlay : ℚ × ℚ) : ℚ × ℚ := target

/-- Pages of the PDF written by `_fit_image_to_pdf` (lines 374-382): one
blank Letter page with the OCR page (of whatever size the OCR engine
emitted) merged onto it. -/
def fitImagePdfPages (dpi : ℕ) (ocrPage : ℚ × ℚ) : List (ℚ × ℚ) :=
  [merge_page
    (create_blank_page ((LETTER_WIDTH_PX dpi : ℚ) * (72 / (dpi : ℚ)))
      ((LETTER_HEIGHT_PX dpi : ℚ) * (72 / (dpi : ℚ))))
    ocrPage]

/-! ## Theorems -/

/-- Claim C5: whenever the content type is `application/pdf` or the bytes
begin with the `%PDF` signature, `convert_to_pdf` stores the input bytes
verbatim and returns the pass-through result, with no validation of the
bytes whatsoever (the statement quantifies over all byte lists, valid
PDF or not). -/
theorem convert_to_pdf_pass_through (fileBytes : List ℕ) (contentType : String)
    (h : contentType = "application/pdf" ∨ fileBytes.take 4 = pdfSignature) :
    convert_to_pdf fileBytes contentType = ConvResult.passThrough fileBytes :=
  if_pos h

/-- Witness for C5: the four bytes `%PDF` alone — a truncated, invalid PDF —
under a non-PDF content type are still passed through verbatim. -/
theorem convert_to_pdf_pass_through_witness :
    convert_to_pdf [37, 80, 68, 70] "application/octet-stream" =
      ConvResult.passThrough [37, 80, 68, 70] :=
  convert_to_pdf_pass_through [37, 80, 68, 70] "application/octet-stream"
    (Or.inr rfl)

/-- Counterexample for C6: at the configured odd resolution `dpi = 201`,
`LETTER_WIDTH_PX = int(8.5 * 201) = 1708` is **not** equal to
`8.5 × 201 = 1708.5` — the truncation loses half a pixel. -/
theorem letter_width_not_exact_at_201 :
    (LETTER_WIDTH_PX 201 : ℚ) ≠ 8.5 * 201 := by
  norm_num [LETTER_WIDTH_PX]

/-- Claim C6 (amended): the height is always exactly `11 × dpi`; the width
is `⌊8.5 × dpi⌋`, which equals `8.5 × dpi` exactly when `dpi` is even and
falls short by exactly `1/2` when `dpi` is odd; the point-space dimensions
are the pixel dimensions times `72 / dpi`. -/
theorem canvas_dimensions (dpi : ℕ) :
    LETTER_HEIGHT_PX dpi = 11 * dpi ∧
    (dpi % 2 = 0 → (LETTER_WIDTH_PX dpi : ℚ) = 8.5 * dpi) ∧
    (dpi % 2 = 1 → (LETTER_WIDTH_PX dpi : ℚ) = 8.5 * dpi - 0.5) ∧
    canvasWidthPts dpi = (LETTER_WIDTH_PX dpi : ℚ) * 72 / (dpi : ℚ) ∧
    canvasHeightPts dpi = (LETTER_HEIGHT_PX dpi : ℚ) * 72 / (dpi : ℚ) := by
  refine ⟨rfl, ?_, ?_, ?_, ?_⟩
  · intro he
    obtain ⟨k, rfl⟩ := (Nat.even_iff.mpr he).exists_two_nsmul dpi
    have hw : LETTER_WIDTH_PX (2 • k) = 17 * k := by
      simp [LETTER_WIDTH_PX, smul_eq_mul]
      omega
    rw [hw]
    push_cast [smul_eq_mul]
    ring_nf
  · intro ho
    obtain ⟨k, rfl⟩ : ∃ k, dpi = 2 * k + 1 := ⟨dpi / 2, by omega⟩
    have hw : LETTER_WIDTH_PX (2 * k + 1) = 17 * k + 8 := by
      simp only [LETTER_WIDTH_PX]
      omega
    rw [hw]
    push_cast
    ring_nf
  · rw [canvasWidthPts, mul_div_assoc]
  · rw [canvasHeightPts, mul_div_assoc]

/-- Witness for C6 (amended): concrete evaluations at the default `dpi =
200` (even) and at `dpi = 201` (odd). -/
theorem canvas_dimensions_witness :
    LETTER_HEIGHT_PX 200 = 11 * 200 ∧
    (LETTER_WIDTH_PX 200 : ℚ) = 8.5 * 200 ∧
    (LETTER_WIDTH_PX 201 : ℚ) = 8.5 * 201 - 0.5 :=
  ⟨(canvas_dimensions 200).1, (canvas_dimensions 200).2.1 rfl,
    (canvas_dimensions 201).2.2.1 rfl⟩

/-- Claim C10: merging an empty list of paths raises nothing and produces a
document with exactly zero pages, for any file store. -/
theorem merge_empty (store : ℕ → Option (List ℕ)) :
    merge_pdf_files store [] = Except.ok [] := rfl

/-- Claim C3: the resolver takes the first candidate that converts
successfully, skipping every earlier failing candidate (download failure or
null conversion alike); an item all of whose candidates fail resolves to
`none` and is dropped while the remaining items are still processed. -/
theorem resolver_first_success :
    (∀ (bads : List CandOutcome) (p : ℕ) (rest : List CandOutcome),
        (∀ c ∈ bads, isFailing c = true) →
        resolveItem (bads ++ CandOutcome.convOk p :: rest) = some p) ∧
    (∀ cands : List CandOutcome,
        (∀ c ∈ cands, isFailing c = true) → resolveItem cands = none) ∧
    (∀ (item : List CandOutcome) (rest : List (List CandOutcome)),
        resolveItem item = none →
        processItems (item :: rest) = processItems rest) := by
  refine ⟨?_, ?_, ?_⟩
  · intro bads p rest hb
    induction bads with
    | nil => rfl
    | cons c cs ih =>
      have hc := hb c (List.mem_cons_self c cs)
      have hcs : ∀ c ∈ cs, isFailing c = true :=
        fun d hd => hb d (List.mem_cons_of_mem c hd)
      cases c with
      | fetchFail => simpa [resolveItem] using ih hcs
      | convFail => simpa [resolveItem] using ih hcs
      | convOk q => simp [isFailing] at hc
  · intro cands hc
    induction cands with
    | nil => rfl
    | cons c cs ih =>
      have h1 := hc c (List.mem_cons_self c cs)
      have hcs : ∀ c ∈ cs, isFailing c = true :=
        fun d hd => hc d (List.mem_cons_of_mem c hd)
      cases c with
      | fetchFail => simpa [resolveItem] using ih hcs
      | convFail => simpa [resolveItem] using ih hcs
      | convOk q => simp [isFailing] at h1
  · intro item rest h
    simp [processItems, h]

/-- Witness for C3: two failing candidates before a good one yield the good
one's path; two failing candidates alone yield `none`; an all-failing item
is dropped while the next item is still processed. -/
theorem resolver_first_success_witness :
    resolveItem
      [CandOutcome.fetchFail, CandOutcome.convFail, CandOutcome.convOk 7] =
        some 7 ∧
    resolveItem [CandOutcome.fetchFail, CandOutcome.convFail] = none ∧
    processItems [[CandOutcome.fetchFail], [CandOutcome.convOk 3]] =
      processItems [[CandOutcome.convOk 3]] :=
  ⟨resolver_first_success.1 [CandOutcome.fetchFail, CandOutcome.convFail] 7 []
      (by decide),
    resolver_first_success.2.1 [CandOutcome.fetchFail, CandOutcome.convFail]
      (by decide),
    resolver_first_success.2.2 [CandOutcome.fetchFail] [[CandOutcome.convOk 3]]
      rfl⟩

/-- Helper: when every path parses, the merge succeeds with the concatenation
of the inputs' page lists in input order. -/
lemma merge_pdf_files_ok {α : Type} (store : ℕ → Option (List α))
    (paths : List ℕ) (h : ∀ p ∈ paths, (store p).isSome = true) :
    merge_pdf_files store paths = Except.ok ((paths.map (pagesOf store)).join) := by
  induction paths with
  | nil => rfl
  | cons p ps ih =>
    obtain ⟨d, hd⟩ := Option.isSome_iff_exists.mp (h p (List.mem_cons_self p ps))
    have hps := ih (fun q hq => h q (List.mem_cons_of_mem p hq))
    simp [merge_pdf_files, hd, hps, pagesOf]

/-- Claim C1: for parseable inputs the merged PDF's page sequence is the
concatenation, in list order, of each input's pages in their original
order; hence its page count is the sum of the inputs' page counts, and
merging a single document leaves its pages unchanged. -/
theorem merge_concatenates {α : Type} (store : ℕ → Option (List α))
    (paths : List ℕ) (h : ∀ p ∈ paths, (store p).isSome = true) :
    merge_pdf_files store paths = Except.ok ((paths.map (pagesOf store)).join) ∧
    ((paths.map (pagesOf store)).join).length =
      (paths.map fun p => (pagesOf store p).length).sum ∧
    (∀ (q : ℕ) (d : List α), store q = some d →
      merge_pdf_files store [q] = Except.ok d) := by
  refine ⟨merge_pdf_files_ok store paths h, ?_, ?_⟩
  · simp [List.length_join, List.map_map, Function.comp_def]
  · intro q d hq
    simp [merge_pdf_files, hq]

/-- Witness for C1: merging a 2-page document with a 3-page document yields
their five pages in order, and merging the 2-page document alone returns it
unchanged. -/
theorem merge_concatenates_witness :
    merge_pdf_files (fun n => some (List.range n)) [2, 3] =
      Except.ok ((([2, 3] : List ℕ).map
        (pagesOf (fun n => some (List.range n)))).join) ∧
    merge_pdf_files (fun n => some (List.range n)) [2] =
      Except.ok (List.range 2) :=
  ⟨(merge_concatenates (fun n => some (List.range n)) [2, 3]
      (fun _ _ => rfl)).1,
   (merge_concatenates (fun n => some (List.range n)) [2, 3]
      (fun _ _ => rfl)).2.2 2 (List.range 2) rfl⟩

/-- Helper: the scale factor is nonnegative. -/
lemma scale_factor_nonneg (W H w h : ℕ) : 0 ≤ scale_factor W H w h := by
  have h1 : (0 : ℚ) ≤ (W : ℚ) / (w : ℚ) := by positivity
  have h2 : (0 : ℚ) ≤ (H : ℚ) / (h : ℚ) := by positivity
  exact le_min (le_min h1 h2) zero_le_one

/-- Helper: the scale factor is at most `W / w`. -/
lemma scale_factor_le_width (W H w h : ℕ) :
    scale_factor W H w h ≤ (W : ℚ) / (w : ℚ) :=
  le_trans (min_le_left _ _) (min_le_left _ _)

/-- Helper: the scale factor is at most `H / h`. -/
lemma scale_factor_le_height (W H w h : ℕ) :
    scale_factor W H w h ≤ (H : ℚ) / (h : ℚ) :=
  le_trans (min_le_left _ _) (min_le_right _ _)

/-- Helper: truncating `w * s` with `s ≤ W / w` stays within `W`. -/
lemma new_width_le (W H w h : ℕ) (hw : 0 < w) : new_width W H w h ≤ W := by
  have hwQ : (0 : ℚ) < (w : ℚ) := by exact_mod_cast hw
  have h1 : (w : ℚ) * scale_factor W H w h ≤ (w : ℚ) * ((W : ℚ) / (w : ℚ)) :=
    mul_le_mul_of_nonneg_left (scale_factor_le_width W H w h) hwQ.le
  have h2 : (w : ℚ) * ((W : ℚ) / (w : ℚ)) = (W : ℚ) := by
    rw [mul_comm]
    exact div_mul_cancel₀ _ hwQ.ne'
  have h3 : ⌊(w : ℚ) * scale_factor W H w h⌋ ≤ ⌊((W : ℕ) : ℚ)⌋ :=
    Int.floor_le_floor (h2 ▸ h1)
  rw [Int.floor_natCast] at h3
  exact Int.toNat_le.mpr h3

/-- Helper: truncating `h * s` with `s ≤ H / h` stays within `H`. -/
lemma new_height_le (W H w h : ℕ) (hh : 0 < h) : new_height W H w h ≤ H := by
  have hhQ : (0 : ℚ) < (h : ℚ) := by exact_mod_cast hh
  have h1 : (h : ℚ) * scale_factor W H w h ≤ (h : ℚ) * ((H : ℚ) / (h : ℚ)) :=
    mul_le_mul_of_nonneg_left (scale_factor_le_height W H w h) hhQ.le
  have h2 : (h : ℚ) * ((H : ℚ) / (h : ℚ)) = (H : ℚ) := by
    rw [mul_comm]
    exact div_mul_cancel₀ _ hhQ.ne'
  have h3 : ⌊(h : ℚ) * scale_factor W H w h⌋ ≤ ⌊((H : ℕ) : ℚ)⌋ :=
    Int.floor_le_floor (h2 ▸ h1)
  rw [Int.floor_natCast] at h3
  exact Int.toNat_le.mpr h3

/-- Helper: the fitted width never exceeds the canvas width. -/
lemma fittedDims_fst_le (W H w h : ℕ) (hw : 0 < w) :
    (fittedDims W H w h).1 ≤ W := by
  unfold fittedDims
  split
  · exact new_width_le W H w h hw
  · rename_i hns
    have h1 : (1 : ℚ) ≤ scale_factor W H w h := not_lt.mp hns
    have h2 : (1 : ℚ) ≤ (W : ℚ) / (w : ℚ) :=
      le_trans h1 (scale_factor_le_width W H w h)
    have hwQ : (0 : ℚ) < (w : ℚ) := by exact_mod_cast hw
    have h3 : (w : ℚ) ≤ (W : ℚ) := (one_le_div hwQ).mp h2
    exact_mod_cast h3

/-- Helper: the fitted height never exceeds the canvas height. -/
lemma fittedDims_snd_le (W H w h : ℕ) (hh : 0 < h) :
    (fittedDims W H w h).2 ≤ H := by
  unfold fittedDims
  split
  · exact new_height_le W H w h hh
  · rename_i hns
    have h1 : (1 : ℚ) ≤ scale_factor W H w h := not_lt.mp hns
    have h2 : (1 : ℚ) ≤ (H : ℚ) / (h : ℚ) :=
      le_trans h1 (scale_factor_le_height W H w h)
    have hhQ : (0 : ℚ) < (h : ℚ) := by exact_mod_cast hh
    have h3 : (h : ℚ) ≤ (H : ℚ) := (one_le_div hhQ).mp h2
    exact_mod_cast h3

/-- Helper: an image already inside the canvas is not touched at all. -/
lemma fittedDims_id (W H w h : ℕ) (hw : 0 < w) (hh : 0 < h)
    (hW : w ≤ W) (hH : h ≤ H) : fittedDims W H w h = (w, h) := by
  have hwQ : (0 : ℚ) < (w : ℚ) := by exact_mod_cast hw
  have hhQ : (0 : ℚ) < (h : ℚ) := by exact_mod_cast hh
  have h1 : (1 : ℚ) ≤ (W : ℚ) / (w : ℚ) :=
    (one_le_div hwQ).mpr (by exact_mod_cast hW)
  have h2 : (1 : ℚ) ≤ (H : ℚ) / (h : ℚ) :=
    (one_le_div hhQ).mpr (by exact_mod_cast hH)
  have hs : (1 : ℚ) ≤ scale_factor W H w h := le_min (le_min h1 h2) le_rfl
  unfold fittedDims
  rw [if_neg (not_lt.mpr hs)]

/-- Claim C2: the fitted image fits inside the Letter canvas in both pixel
dimensions, and an image already inside the canvas keeps exactly its input
dimensions (the scale factor is capped at 1, so no upscaling occurs). -/
theorem fit_no_upscale (dpi w h : ℕ) (hw : 0 < w) (hh : 0 < h) :
    (fittedDims (LETTER_WIDTH_PX dpi) (LETTER_HEIGHT_PX dpi) w h).1 ≤
      LETTER_WIDTH_PX dpi ∧
    (fittedDims (LETTER_WIDTH_PX dpi) (LETTER_HEIGHT_PX dpi) w h).2 ≤
      LETTER_HEIGHT_PX dpi ∧
    (w ≤ LETTER_WIDTH_PX dpi → h ≤ LETTER_HEIGHT_PX dpi →
      fittedDims (LETTER_WIDTH_PX dpi) (LETTER_HEIGHT_PX dpi) w h = (w, h)) :=
  ⟨fittedDims_fst_le _ _ _ _ hw, fittedDims_snd_le _ _ _ _ hh,
    fun hW hH => fittedDims_id _ _ _ _ hw hh hW hH⟩

/-- Witness for C2: at the default 200 dpi, a 3400x4400 image is scaled
within the 1700x2200 canvas, and a 1000x800 image is left untouched. -/
theorem fit_no_upscale_witness :
    (fittedDims (LETTER_WIDTH_PX 200) (LETTER_HEIGHT_PX 200) 3400 4400).1 ≤
      LETTER_WIDTH_PX 200 ∧
    (fittedDims (LETTER_WIDTH_PX 200) (LETTER_HEIGHT_PX 200) 3400 4400).2 ≤
      LETTER_HEIGHT_PX 200 ∧
    fittedDims (LETTER_WIDTH_PX 200) (LETTER_HEIGHT_PX 200) 1000 800 =
      (1000, 800) :=
  ⟨(fit_no_upscale 200 3400 4400 (by decide) (by decide)).1,
   (fit_no_upscale 200 3400 4400 (by decide) (by decide)).2.1,
   (fit_no_upscale 200 1000 800 (by decide) (by decide)).2.2
     (by decide) (by decide)⟩

/-- Helper: scaling preserves the width-height order. -/
lemma fittedDims_mono (W H w h : ℕ) (hwh : w ≤ h) :
    (fittedDims W H w h).1 ≤ (fittedDims W H w h).2 := by
  unfold fittedDims
  split
  · have hs := scale_factor_nonneg W H w h
    have h1 : (w : ℚ) * scale_factor W H w h ≤ (h : ℚ) * scale_factor W H w h :=
      mul_le_mul_of_nonneg_right (by exact_mod_cast hwh) hs
    exact Int.toNat_le_toNat (Int.floor_le_floor h1)
  · exact hwh

/-- Claim C9: an image that is landscape after orientation correction goes
through the portrait rotation and scaling and comes out with width at most
its height. -/
theorem portrait_preserved (dpi w h : ℕ) (hlt : h < w) :
    (fitPipelineDims (LETTER_WIDTH_PX dpi) (LETTER_HEIGHT_PX dpi) w h).1 ≤
      (fitPipelineDims (LETTER_WIDTH_PX dpi) (LETTER_HEIGHT_PX dpi) w h).2 := by
  unfold fitPipelineDims
  have hp : portraitDims w h = (h, w) := if_pos hlt
  rw [hp]
  exact fittedDims_mono _ _ _ _ hlt.le

/-- Witness for C9: a 3x2 landscape image at 200 dpi ends portrait. -/
theorem portrait_preserved_witness :
    (fitPipelineDims (LETTER_WIDTH_PX 200) (LETTER_HEIGHT_PX 200) 3 2).1 ≤
      (fitPipelineDims (LETTER_WIDTH_PX 200) (LETTER_HEIGHT_PX 200) 3 2).2 :=
  portrait_preserved 200 3 2 (by decide)

/-- Claim C4: `_fit_image_to_pdf` writes exactly one page, and its media box
equals the canvas size in points (`LETTER_WIDTH_PX x 72/DPI` by
`LETTER_HEIGHT_PX x 72/DPI`) within 5 points, whatever page size the OCR
engine emitted for the image. -/
theorem fit_output_page (dpi : ℕ) (ocrPage : ℚ × ℚ) :
    (fitImagePdfPages dpi ocrPage).length = 1 ∧
    ∀ pg ∈ fitImagePdfPages dpi ocrPage,
      |pg.1 - canvasWidthPts dpi| ≤ 5 ∧ |pg.2 - canvasHeightPts dpi| ≤ 5 := by
  refine ⟨rfl, ?_⟩
  intro pg hpg
  have hp : pg = ((LETTER_WIDTH_PX dpi : ℚ) * (72 / (dpi : ℚ)),
      (LETTER_HEIGHT_PX dpi : ℚ) * (72 / (dpi : ℚ))) := by
    simpa [fitImagePdfPages, merge_page, create_blank_page] using hpg
  subst hp
  constructor
  · simp [canvasWidthPts]
  · simp [canvasHeightPts]

/-- Witness for C4: at 200 dpi and an OCR page of arbitrary size 100x50
points, the single emitted page is 612x792 points, within 5 points of the
canvas. -/
theorem fit_output_page_witness :
    (fitImagePdfPages 200 (100, 50)).length = 1 ∧
    |(((612 : ℚ), (792 : ℚ))).1 - canvasWidthPts 200| ≤ 5 ∧
    |(((612 : ℚ), (792 : ℚ))).2 - canvasHeightPts 200| ≤ 5 :=
  ⟨(fit_output_page 200 (100, 50)).1,
   (fit_output_page 200 (100, 50)).2 (612, 792) (by
     simp [fitImagePdfPages, merge_page, create_blank_page,
       LETTER_WIDTH_PX, LETTER_HEIGHT_PX]
     norm_num)⟩

/-- Claim C7 (refuted): on the 2x1 landscape sample the code applies
Pillow's `ROTATE_90`, the **counterclockwise** quarter-turn, whose result
differs pixelwise from the clockwise quarter-turn that the claim and the
code's own inline comment describe. -/
theorem rotate_is_counterclockwise :
    forcePortrait landscapeSample = transposeROTATE90 landscapeSample ∧
    (forcePortrait landscapeSample).pix 0 0 = 1 ∧
    (rotate90Clockwise landscapeSample).pix 0 0 = 0 ∧
    forcePortrait landscapeSample ≠ rotate90Clockwise landscapeSample := by
  refine ⟨rfl, rfl, rfl, fun hcontra => ?_⟩
  have h10 : (1 : ℕ) = 0 := by
    calc (1 : ℕ) = (forcePortrait landscapeSample).pix 0 0 := rfl
      _ = (rotate90Clockwise landscapeSample).pix 0 0 := by rw [hcontra]
      _ = 0 := rfl
  exact one_ne_zero h10

/-- Counterexample for C8: a fully transparent black-palette P image is not
composited through its alpha channel — the code pastes it with no mask, so
the pixel stays black instead of becoming white. -/
theorem p_mode_ignores_alpha :
    (toRGB pSample).color 0 0 ≠
      compositeOver whiteColor (pSample.color 0 0) (pSample.alpha 0 0) := by
  decide

/-- Claim C8 (amended): the mode-normalization step always yields an RGB
image; RGBA and LA images are composited onto a white background through
their own alpha channel; P images are pasted with no mask (palette colors
kept verbatim, alpha ignored); other non-RGB modes convert directly; RGB
images pass through unchanged. -/
theorem mode_normalization (im : PImg) :
    (toRGB im).mode = Mode.RGB ∧
    ((im.mode = Mode.RGBA ∨ im.mode = Mode.LA) →
      ∀ x y, (toRGB im).color x y =
        compositeOver whiteColor (im.color x y) (im.alpha x y)) ∧
    (im.mode = Mode.P → (toRGB im).color = im.color) ∧
    (im.mode = Mode.L → (toRGB im).color = im.color) ∧
    (im.mode = Mode.RGB → toRGB im = im) := by
  cases him : im.mode <;>
    refine ⟨?_, ?_, ?_, ?_, ?_⟩ <;>
      simp [toRGB, him]

/-- Witness for C8 (amended): the transparent P sample comes out RGB with
its palette colors untouched. -/
theorem mode_normalization_witness :
    (toRGB pSample).mode = Mode.RGB ∧ (toRGB pSample).color = pSample.color :=
  ⟨(mode_normalization pSample).1, (mode_normalization pSample).2.2.1 rfl⟩

end MergePDF
